import Mathlib

/-!
Verification of the QC Scoring Engine of the QC-Dashboard repository
(file `2scoring_logic.py`), as a shallow embedding in Lean 4.

Modelling conventions:
* Python strings are Lean `String`s; Python's `s.lower()` is modelled on the
  ASCII fragment (the only fragment the keyword lists exercise) by mapping
  codepoints 65..90 to codepoints 97..122.
* Python's substring test `needle in hay` is `substrB needle hay`.
* A value that is passed through `float(...)` is modelled by
  `Option PyFloat`: `none` means the conversion raises (`None`, a
  non-numeric string), `some .nan` means the conversion yields IEEE NaN
  (e.g. `mttr_hours` of a ticket with a missing timestamp), and
  `some (.val q)` a finite float, represented as a rational.  All
  comparisons performed by the code (`<= 4`, `<= 8`, `<= 24`, `<= 72`,
  `> 72`) are order-faithful under this representation, and every IEEE
  comparison with NaN is false, which the model reproduces.
* A field that can be Python-`None` is an `Option String`; `none` models
  `None` and Python truthiness of such a field is `py_truthy`.  A pandas
  missing value (float NaN, which is what `pd.read_csv` delivers for an
  empty cell) is *truthy* and stringifies to "nan", so it enters this
  model as `some "nan"`, not as `none`.
* Scores are `ℕ`; the derived percentage is exact rational arithmetic with
  round-half-to-even at one decimal, mirroring Python's `round(x, 1)`
  (on the values reachable here, `k·20/13` percent, no tie ever occurs and
  the float error of `x` is far below the distance to the nearest tie, so
  the rational model agrees with the float computation).
-/

namespace QC

/-- ASCII lower-casing of one character, as Python's `str.lower` acts on the
characters occurring in the keyword lists of the scoring engine. -/
def pyToLower (c : Char) : Char :=
  if 65 ≤ c.toNat ∧ c.toNat ≤ 90 then Char.ofNat (c.toNat + 32) else c

/-- Python `s.lower()` on a whole string. -/
def pylower (s : String) : String :=
  String.mk (s.data.map pyToLower)

/-- Does `needle` match at the head of `hay`? -/
def matchAt : List Char → List Char → Bool
  | [], _ => true
  | _ :: _, [] => false
  | a :: as, b :: bs => a == b && matchAt as bs

/-- Does `needle` occur somewhere in `hay`?  (Python's `needle in hay`.) -/
def occursIn (needle : List Char) : List Char → Bool
  | [] => matchAt needle []
  | b :: bs => matchAt needle (b :: bs) || occursIn needle bs

/-- Python's substring test `needle in hay` on strings. -/
def substrB (needle hay : String) : Bool :=
  occursIn needle.data hay.data

/-- Utility `contains(text, kws)` of `2scoring_logic.py`: case-insensitive
keyword search, `any(k.lower() in str(text or "").lower() for k in kws)`. -/
def contains (text : String) (kws : List String) : Bool :=
  kws.any (fun k => substrB (pylower k) (pylower text))

/-- Utility `count_hits(text, kws)` of `2scoring_logic.py`: how many
keywords matched. -/
def count_hits (text : String) (kws : List String) : Nat :=
  List.countP (fun k => substrB (pylower k) (pylower text)) kws

/-- A float produced by a successful `float(...)` conversion: IEEE NaN or a
finite value (represented as a rational). -/
inductive PyFloat where
  | nan : PyFloat
  | val : ℚ → PyFloat

/-- IEEE comparison `x <= c` for a float `x`: false whenever `x` is NaN. -/
def pyLeB (x : PyFloat) (c : ℚ) : Bool :=
  match x with
  | .nan => false
  | .val q => decide (q ≤ c)

/-- IEEE comparison `x > c` for a float `x`: false whenever `x` is NaN. -/
def pyGtB (x : PyFloat) (c : ℚ) : Bool :=
  match x with
  | .nan => false
  | .val q => decide (c < q)

/-- Python truthiness of an optional string field (`None` and `""` are
falsy). -/
def py_truthy (s : Option String) : Bool :=
  match s with
  | none => false
  | some s => !(s == "")

/-- Python `str(...)` of an optional string field. -/
def py_str (s : Option String) : String :=
  match s with
  | none => "None"
  | some s => s

/-! Keyword lists, copied verbatim from `2scoring_logic.py`. -/

def PHR_HOLD : List String :=
  ["placed the ticket on hold", "on hold awaiting your response"]

def PHR_STRIKE1 : List String :=
  ["strike 1", "first reminder", "this is a reminder"]

def PHR_STRIKE2 : List String :=
  ["strike 2", "second reminder"]

def PHR_STRIKE3 : List String :=
  ["strike 3", "final reminder", "final notice"]

def PHR_CLOSURE : List String :=
  ["closure email", "closing the ticket", "soft closing", "resolve/close the ticket"]

def PHR_CONTACT : List String :=
  ["connect chat", "+1 713 430 1333", "+44 1224 85 1333", "+61 8 6314 2333"]

def RESOLUTION_HEADERS : List String :=
  ["issue reported:", "probable cause:", "resolution provided:"]

def PHR_TEAMS : List String :=
  ["teams", "ms teams", "microsoft teams"]

def PHR_CONFIRM : List String :=
  ["user confirmed", "client confirmed", "thank you", "thanks"]

def PHR_SCREENSHOT : List String :=
  ["attachment", "screenshot", ".png", ".jpg", ".jpeg"]

def BAD_LANGUAGE : List String :=
  ["idiot", "nonsense", "stupid", "shit", "fuck"]

/-! Detection functions. -/

/-- Detector `detect_resolution_format`: all three structural headers must
occur in the lower-cased text. -/
def detect_resolution_format (text : String) : Bool :=
  let t := pylower text
  RESOLUTION_HEADERS.all (fun h => substrB h t)

/-- Detector `detect_three_strike_flow`: the early-return chain of the source —
hold phrase, then one of the strike phrases, then a closure phrase, then a
contact phrase; any failing check returns false. -/
def detect_three_strike_flow (full_text : String) : Bool :=
  let t := pylower full_text
  if !(contains t PHR_HOLD) then false
  else if !(contains t PHR_STRIKE1 || contains t PHR_STRIKE2 || contains t PHR_STRIKE3) then false
  else if !(contains t PHR_CLOSURE) then false
  else if !(contains t PHR_CONTACT) then false
  else true

/-- Detector `detect_screenshot`. -/
def detect_screenshot (full_text : String) : Bool :=
  contains full_text PHR_SCREENSHOT

/-- Detector `detect_teams_confirmation`: tri-level strength 5 / 3 / 0. -/
def detect_teams_confirmation (full_text : String) : Nat :=
  if contains full_text PHR_TEAMS && contains full_text PHR_CONFIRM then 5
  else if contains full_text PHR_TEAMS then 3
  else 0

/-! The thirteen checkpoint scorers. -/

/-- Checkpoint 1, `score_category`.  The guard `if not category` fires
only for `None` (`none` here) and the empty string; a pandas-NaN category
is truthy and is compared as the string "nan" (`some "nan"` here). -/
def score_category (category : Option String) (notes : String) : Nat :=
  if !(py_truthy category) then 0
  else
    let cat := pylower (py_str category)
    let txt := pylower notes
    if substrB cat txt then 5
    else if 80 < txt.length then 3
    else 0

/-- Checkpoint 2, `score_subcategory`; same `None`/NaN behaviour as
checkpoint 1. -/
def score_subcategory (subcat : Option String) (notes : String) : Nat :=
  if !(py_truthy subcat) then 0
  else
    let sub := pylower (py_str subcat)
    let txt := pylower notes
    if substrB sub txt then 5
    else if 80 < txt.length then 3
    else 0

/-- Checkpoint 3, `score_read_prev`. -/
def score_read_prev (full_text : String) : Nat :=
  if contains full_text ["as per previous", "see previous", "deployment notes"] then 5
  else if 150 < full_text.length then 3
  else 0

/-- Checkpoint 4, `score_routing`. -/
def score_routing (full_text : String) : Nat :=
  let hits := count_hits full_text ["wrong queue", "misrouted", "incorrect routing", "reassign"]
  if hits = 0 then 5
  else if hits ≤ 1 then 3
  else 0

/-- Checkpoint 5, `score_ownership`. -/
def score_ownership (full_text : String) : Nat :=
  if contains full_text ["handed over to", "transferred to"] then 2
  else if contains full_text ["working with user", "followed up", "i contacted"] then 5
  else 3

/-- Checkpoint 6, `score_timely`: `pd.isna(hours)` is modelled by `.nan`
(the `response_time_hours` column is a float column, NaN when a timestamp
was missing). -/
def score_timely (hours : PyFloat) : Nat :=
  match hours with
  | .nan => 3
  | .val h => if h ≤ 4 then 5 else if h ≤ 24 then 3 else 0

/-- Checkpoint 7, `score_priority`.  The `mttr` argument is the outcome of
the `float(mttr)` conversion: `none` when it raises (the `except` branch),
otherwise the converted float. -/
def score_priority (priority : String) (mttr : Option PyFloat) : Nat :=
  let p := pylower priority
  match mttr with
  | none => 3
  | some m =>
    if substrB "p1" p then (if pyLeB m 4 then 5 else 2)
    else if substrB "p2" p then (if pyLeB m 8 then 5 else 3)
    else if pyLeB m 72 then 5 else 2

/-- Checkpoint 8, `score_email_format`. -/
def score_email_format (full_text resolution_notes : String) : Nat :=
  let t := pylower full_text
  let resolution_ok := detect_resolution_format resolution_notes
  let strike_ok := detect_three_strike_flow t
  let contact_ok := contains t PHR_CONTACT
  if resolution_ok && strike_ok && contact_ok then 5
  else if resolution_ok || strike_ok || contact_ok then 3
  else 0

/-- Checkpoint 9, `score_teams_text`. -/
def score_teams_text (full_text : String) : Nat :=
  detect_teams_confirmation full_text

/-- Checkpoint 10, `score_screenshot_field`. -/
def score_screenshot_field (full_text : String) : Nat :=
  if detect_screenshot full_text then 5
  else if detect_three_strike_flow full_text then 0
  else 3

/-- Checkpoint 11, `score_doc_share`. -/
def score_doc_share (full_text : String) : Nat :=
  if contains full_text ["sharepoint", "confluence", "\\\\", "/sites/"] then 5
  else 0

/-- Checkpoint 12, `score_compliance`.  The profanity scan of the source
tests each blacklist entry directly against the lower-cased text; the
SLA fallback wraps `float(mttr) > 72` in `try/except`, so a failing
conversion (`none`) falls through to the final `return 5`. -/
def score_compliance (full_text : String) (mttr : Option PyFloat) (timeline : String) : Nat :=
  let t := pylower full_text
  if BAD_LANGUAGE.any (fun bad => substrB bad t) then 0
  else if substrB "met" (pylower timeline) then 5
  else if substrB "breach" (pylower timeline) then 2
  else if (match mttr with | some m => pyGtB m 72 | none => false) then 2
  else 5

/-- Checkpoint 13, `score_client_notes`. -/
def score_client_notes (full_text : String) : Nat :=
  if contains full_text ["user confirmed", "client confirmed", "issue resolved"] then 5
  else 0

/-! Pipeline: one ticket row of `main()`. -/

/-- One normalized ticket row as consumed by `main()` of
`2scoring_logic.py`.  The four text fields are defaulted to the empty
string by the ingestion step; `response_time_hours` and `mttr_hours` are
float columns (NaN when a timestamp was missing). -/
structure Ticket where
  category : Option String
  subcategory : Option String
  priority : String
  timeline : String
  resolution_notes : String
  work_notes : String
  comments_and_work_notes : String
  comments : String
  response_time_hours : PyFloat
  mttr_hours : PyFloat

/-- The unified text blob `df["unified"]`: the four note fields joined by
newlines, in the order of the source. -/
def unified (r : Ticket) : String :=
  r.resolution_notes ++ "\n" ++ r.work_notes ++ "\n" ++
    r.comments_and_work_notes ++ "\n" ++ r.comments

/-- The thirteen `qc_` columns of one row, in the order `main()` creates
them.  `score_priority` and `score_compliance` receive the float
`mttr_hours` value itself (a `float(...)` of a float never raises, hence
`some`). -/
def qc_scores (r : Ticket) : List Nat :=
  [score_category r.category r.resolution_notes,
   score_subcategory r.subcategory r.resolution_notes,
   score_read_prev (unified r),
   score_routing (unified r),
   score_ownership (unified r),
   score_timely r.response_time_hours,
   score_priority r.priority (some r.mttr_hours),
   score_email_format (unified r) r.resolution_notes,
   score_teams_text (unified r),
   score_screenshot_field (unified r),
   score_doc_share (unified r),
   score_compliance (unified r) (some r.mttr_hours) r.timeline,
   score_client_notes (unified r)]

/-- Column `qc_total_65`: the row-wise sum over the `qc_` columns. -/
def qc_total_65 (r : Ticket) : Nat :=
  (qc_scores r).sum

/-- Python `round(x, 1)`: round to one decimal, ties to even, at the exact
rational level. -/
def pyRound1 (x : ℚ) : ℚ :=
  let f : ℤ := ⌊x * 10⌋
  let frac : ℚ := x * 10 - f
  let n : ℤ :=
    if frac < 1/2 then f
    else if 1/2 < frac then f + 1
    else if f % 2 = 0 then f else f + 1
  (n : ℚ) / 10

/-- Column `qc_percent = round(qc_total_65 / 65 * 100, 1)`. -/
def qc_percent (r : Ticket) : ℚ :=
  pyRound1 ((qc_total_65 r : ℚ) / 65 * 100)

/-! Basic facts about the lower-casing model. -/

/-- Reading back the codepoint written by `Char.ofNat` at a valid
codepoint. -/
theorem toNat_ofNat_valid (n : Nat) (h : n.isValidChar) :
    (Char.ofNat n).toNat = n := by
  unfold Char.ofNat
  rw [dif_pos h]
  rfl

/-- Lower-casing one character is idempotent. -/
theorem pyToLower_idem (c : Char) : pyToLower (pyToLower c) = pyToLower c := by
  unfold pyToLower
  by_cases h : 65 ≤ c.toNat ∧ c.toNat ≤ 90
  · rw [if_pos h]
    have hv : (c.toNat + 32).isValidChar := Or.inl (by omega)
    have ht : (Char.ofNat (c.toNat + 32)).toNat = c.toNat + 32 :=
      toNat_ofNat_valid _ hv
    rw [if_neg (by omega)]
  · rw [if_neg h, if_neg h]

/-- Lower-casing a string is idempotent. -/
theorem pylower_idem (s : String) : pylower (pylower s) = pylower s := by
  show String.mk ((s.data.map pyToLower).map pyToLower) = String.mk (s.data.map pyToLower)
  rw [List.map_map]
  exact congrArg String.mk (List.map_congr_left (fun c _ => pyToLower_idem c))

/-- Lower-casing preserves the length of a string. -/
theorem pylower_length (s : String) : (pylower s).length = s.length := by
  show (s.data.map pyToLower).length = s.data.length
  exact List.length_map s.data pyToLower

/-- The keyword search already lower-cases its input, so pre-lowering the
text does not change it. -/
theorem contains_pylower (s : String) (kws : List String) :
    contains (pylower s) kws = contains s kws := by
  unfold contains
  simp only [pylower_idem]

/-- The workflow detector already lower-cases its input, so pre-lowering
the text does not change it. -/
theorem detect_pylower (s : String) :
    detect_three_strike_flow (pylower s) = detect_three_strike_flow s := by
  unfold detect_three_strike_flow
  simp only [contains_pylower]

/-- The early-return chain of `detect_three_strike_flow` is the
conjunction of its four keyword checks. -/
theorem detect_eq_and (s : String) :
    detect_three_strike_flow s =
      (contains s PHR_HOLD &&
        (contains s PHR_STRIKE1 || contains s PHR_STRIKE2 || contains s PHR_STRIKE3) &&
        contains s PHR_CLOSURE && contains s PHR_CONTACT) := by
  unfold detect_three_strike_flow
  simp only [contains_pylower]
  cases contains s PHR_HOLD <;>
    cases contains s PHR_STRIKE1 <;>
      cases contains s PHR_STRIKE2 <;>
        cases contains s PHR_STRIKE3 <;>
          cases contains s PHR_CLOSURE <;>
            cases contains s PHR_CONTACT <;> rfl

/-- A detected workflow always carries a contact phrase. -/
theorem strike_imp_contact (s : String) :
    detect_three_strike_flow s = true → contains s PHR_CONTACT = true := by
  intro h
  rw [detect_eq_and] at h
  exact (Bool.and_eq_true_iff.mp h).2

/-! Claims. -/

/-- Concrete text carrying a hold phrase, a strike-1 phrase and a closure
phrase but no contact phrase. -/
def T1 : String := "placed the ticket on hold; strike 1; closing the ticket"

/-- Claim C1, counterexample: on a text with a hold, a strike-1 and a
closure phrase but no contact phrase, and resolution notes lacking the
three structural headers, `detect_three_strike_flow` is false but
checkpoint 8 scores 0, not the claimed partial score 3. -/
theorem claim1_cex :
    contains T1 PHR_HOLD = true ∧
    contains T1 PHR_STRIKE1 = true ∧
    contains T1 PHR_CLOSURE = true ∧
    contains T1 PHR_CONTACT = false ∧
    detect_resolution_format "" = false ∧
    detect_three_strike_flow T1 = false ∧
    ¬ score_email_format T1 "" = 3 := by
  decide

/-- Claim C1 (amended): for every text containing a hold phrase, a
strike-1 phrase and a closure phrase but no contact-information phrase,
`detect_three_strike_flow` returns false, and checkpoint 8
(`score_email_format`) applied to that text with resolution notes lacking
the three structural headers returns 0 (no partial signal is present),
not 5. -/
theorem claim1_no_contact_scores_zero (text notes : String)
    (hhold : contains text PHR_HOLD = true)
    (hstrike : contains text PHR_STRIKE1 = true)
    (hclose : contains text PHR_CLOSURE = true)
    (hcontact : contains text PHR_CONTACT = false)
    (hnotes : detect_resolution_format notes = false) :
    detect_three_strike_flow text = false ∧ score_email_format text notes = 0 := by
  have hd : detect_three_strike_flow text = false := by
    rw [detect_eq_and, hcontact]
    simp
  refine ⟨hd, ?_⟩
  unfold score_email_format
  simp only [detect_pylower, contains_pylower]
  rw [hnotes, hd, hcontact]
  rfl

/-- Claim C1, witness for the amended statement at `T1`. -/
theorem claim1_witness :
    contains T1 PHR_HOLD = true ∧
    contains T1 PHR_STRIKE1 = true ∧
    contains T1 PHR_CLOSURE = true ∧
    contains T1 PHR_CONTACT = false ∧
    detect_resolution_format "" = false ∧
    (detect_three_strike_flow T1 = false ∧ score_email_format T1 "" = 0) :=
  ⟨by decide, by decide, by decide, by decide, by decide,
    claim1_no_contact_scores_zero T1 "" (by decide) (by decide) (by decide)
      (by decide) (by decide)⟩

/-- Claim C2: evaluation of checkpoint 7 at an undefined `mttr_hours`.  A
NaN `mttr_hours` (missing timestamp) passes the `float(...)` conversion
without raising and then fails every comparison, so a priority containing
"p1" scores 2 and the p3 branch scores 2 — not the neutral 3 the claim
requires for every priority; only an argument on which `float(...)`
raises (for example `None` or a non-numeric string) reaches the neutral
3. -/
theorem claim2_nan_mttr_eval :
    score_priority "P1 - Critical" (some PyFloat.nan) = 2 ∧
    score_priority "P2 - High" (some PyFloat.nan) = 3 ∧
    score_priority "P3 - Moderate" (some PyFloat.nan) = 2 ∧
    score_priority "P1 - Critical" none = 3 ∧
    score_priority "P3 - Moderate" none = 3 := by
  decide

/-- Concrete resolution notes, longer than 80 characters, not containing
the substring "nan". -/
def N3 : String :=
  "user reported that the monitor cable was loose and the display went dark; reseated the cable and verified output"

/-- Claim C3: evaluation of checkpoint 1 when the category is missing in
the CSV.  `main()` reads `cleaned_intermediate.csv` with `pd.read_csv`
and ingestion never defaults the `category` column, so a missing category
reaches `score_category` as pandas NaN — truthy, stringifying to "nan"
(`some "nan"` in this model).  The `if not category` guard therefore does
not fire, and notes of more than 80 characters score 3, not the 0 the
claim requires for a missing category; only `None` and the empty string
reach the 0 branch. -/
theorem claim3_nan_category_eval :
    score_category (some "nan") N3 = 3 ∧
    80 < N3.length ∧
    substrB "nan" (pylower N3) = false ∧
    score_category none N3 = 0 ∧
    score_category (some "") N3 = 0 := by
  decide

/-- Claim C4: `detect_three_strike_flow` is true exactly when the text
contains a hold phrase, at least one strike-1/2/3 phrase, a closure
phrase and a contact-information phrase; only co-occurrence matters. -/
theorem claim4_workflow_iff (text : String) :
    detect_three_strike_flow text = true ↔
      (contains text PHR_HOLD = true ∧
        (contains text PHR_STRIKE1 = true ∨ contains text PHR_STRIKE2 = true ∨
          contains text PHR_STRIKE3 = true) ∧
        contains text PHR_CLOSURE = true ∧
        contains text PHR_CONTACT = true) := by
  rw [detect_eq_and]
  simp [Bool.and_eq_true_iff, Bool.or_eq_true_iff, and_assoc, or_assoc]

/-- Claim C5: for a priority containing "p1" and a finite parsed mttr,
checkpoint 7 scores 5 exactly on the inclusive boundary `mttr ≤ 4` and 2
for any value strictly greater than 4. -/
theorem claim5_p1_boundary (p : String) (q : ℚ)
    (hp1 : substrB "p1" (pylower p) = true) :
    score_priority p (some (PyFloat.val q)) = if q ≤ 4 then 5 else 2 := by
  simp only [score_priority, hp1, pyLeB]
  by_cases h : q ≤ 4 <;> simp [h]

/-- Claim C5, witness: priority "P1 - Critical" with mttr exactly 4 scores
5 and with mttr 4.01 scores 2. -/
theorem claim5_witness :
    substrB "p1" (pylower "P1 - Critical") = true ∧
    score_priority "P1 - Critical" (some (PyFloat.val 4)) = 5 ∧
    score_priority "P1 - Critical" (some (PyFloat.val (mkRat 401 100))) = 2 := by
  refine ⟨by decide, ?_, ?_⟩
  · rw [claim5_p1_boundary "P1 - Critical" 4 (by decide)]
    decide
  · rw [claim5_p1_boundary "P1 - Critical" (mkRat 401 100) (by decide)]
    decide

/-- Claim C6: checkpoint 12 returns 0 as soon as a blacklisted term is
present, regardless of timeline and mttr; otherwise 5 on a "met"
timeline, else 2 on a "breach" timeline, else 2 when the mttr parses to a
value greater than 72, else 5. -/
theorem claim6_compliance_policy (text : String) (mttr : Option PyFloat)
    (timeline : String) :
    score_compliance text mttr timeline =
      (if contains text BAD_LANGUAGE then 0
       else if substrB "met" (pylower timeline) then 5
       else if substrB "breach" (pylower timeline) then 2
       else if (match mttr with
                | some (PyFloat.val q) => decide (72 < q)
                | _ => false) then 2
       else 5) := by
  have hany : BAD_LANGUAGE.any (fun bad => substrB bad (pylower text)) =
      contains text BAD_LANGUAGE := rfl
  have hm : (match mttr with | some m => pyGtB m 72 | none => false) =
      (match mttr with
       | some (PyFloat.val q) => decide (72 < q)
       | _ => false) := by
    rcases mttr with _ | m
    · rfl
    · cases m <;> rfl
  simp only [score_compliance]
  rw [hany, hm]

/-- Claim C7: checkpoint 10 scores 5 on screenshot evidence, else 0 when
the full escalation workflow is detected in the same text, else the
neutral 3; in particular a detected workflow without screenshot evidence
scores 0. -/
theorem claim7_screenshot_policy (text : String) :
    score_screenshot_field text =
      (if contains text PHR_SCREENSHOT then 5
       else if detect_three_strike_flow text then 0
       else 3) ∧
    (detect_three_strike_flow text = true → contains text PHR_SCREENSHOT = false →
      score_screenshot_field text = 0) := by
  constructor
  · rfl
  · intro hd hs
    unfold score_screenshot_field detect_screenshot
    rw [hs, hd]
    decide

/-- Concrete text carrying a complete escalation workflow but no
screenshot evidence. -/
def T7 : String :=
  "placed the ticket on hold. strike 1. closing the ticket. connect chat"

/-- Claim C7, witness: a full workflow without screenshot evidence scores
0 at checkpoint 10. -/
theorem claim7_witness :
    detect_three_strike_flow T7 = true ∧
    contains T7 PHR_SCREENSHOT = false ∧
    score_screenshot_field T7 = 0 :=
  ⟨by decide, by decide,
    (claim7_screenshot_policy T7).2 (by decide) (by decide)⟩

/-- Claim C10: the contact check is embedded inside the workflow detector,
so a detected workflow implies a contact phrase, and checkpoint 8 scores
5 exactly when the resolution-structure check and the workflow check both
hold — the third boolean never decides a 5. -/
theorem claim10_strike_contact (text notes : String) :
    (detect_three_strike_flow text = true → contains text PHR_CONTACT = true) ∧
    (score_email_format text notes = 5 ↔
      (detect_resolution_format notes = true ∧ detect_three_strike_flow text = true)) := by
  refine ⟨strike_imp_contact text, ?_⟩
  unfold score_email_format
  simp only [detect_pylower, contains_pylower]
  cases hs : detect_three_strike_flow text
  · cases hr : detect_resolution_format notes <;>
      cases hc : contains text PHR_CONTACT <;> simp
  · have hc := strike_imp_contact text hs
    rw [hc]
    cases hr : detect_resolution_format notes <;> simp

/-- Claim C10, witness: instantiation at the workflow text `T7` with
resolution notes consisting of the three headers. -/
theorem claim10_witness :
    detect_three_strike_flow T7 = true → contains T7 PHR_CONTACT = true :=
  (claim10_strike_contact T7 "").1

/-! Range analysis of the thirteen scorers. -/

/-- Range of checkpoint 1. -/
theorem score_category_cases (c : Option String) (n : String) :
    score_category c n = 0 ∨ score_category c n = 2 ∨
    score_category c n = 3 ∨ score_category c n = 5 := by
  simp only [score_category]
  split_ifs <;> simp

/-- Range of checkpoint 2. -/
theorem score_subcategory_cases (c : Option String) (n : String) :
    score_subcategory c n = 0 ∨ score_subcategory c n = 2 ∨
    score_subcategory c n = 3 ∨ score_subcategory c n = 5 := by
  simp only [score_subcategory]
  split_ifs <;> simp

/-- Range of checkpoint 3. -/
theorem score_read_prev_cases (t : String) :
    score_read_prev t = 0 ∨ score_read_prev t = 2 ∨
    score_read_prev t = 3 ∨ score_read_prev t = 5 := by
  simp only [score_read_prev]
  split_ifs <;> simp

/-- Range of checkpoint 4. -/
theorem score_routing_cases (t : String) :
    score_routing t = 0 ∨ score_routing t = 2 ∨
    score_routing t = 3 ∨ score_routing t = 5 := by
  simp only [score_routing]
  split_ifs <;> simp

/-- Range of checkpoint 5. -/
theorem score_ownership_cases (t : String) :
    score_ownership t = 0 ∨ score_ownership t = 2 ∨
    score_ownership t = 3 ∨ score_ownership t = 5 := by
  simp only [score_ownership]
  split_ifs <;> simp

/-- Range of checkpoint 6. -/
theorem score_timely_cases (h : PyFloat) :
    score_timely h = 0 ∨ score_timely h = 2 ∨
    score_timely h = 3 ∨ score_timely h = 5 := by
  rcases h with _ | h
  · simp [score_timely]
  · simp only [score_timely]
    split_ifs <;> simp

/-- Range of checkpoint 7. -/
theorem score_priority_cases (p : String) (m : Option PyFloat) :
    score_priority p m = 0 ∨ score_priority p m = 2 ∨
    score_priority p m = 3 ∨ score_priority p m = 5 := by
  rcases m with _ | m
  · simp [score_priority]
  · simp only [score_priority]
    split_ifs <;> simp

/-- Range of checkpoint 8. -/
theorem score_email_format_cases (t n : String) :
    score_email_format t n = 0 ∨ score_email_format t n = 2 ∨
    score_email_format t n = 3 ∨ score_email_format t n = 5 := by
  simp only [score_email_format]
  split_ifs <;> simp

/-- Range of checkpoint 9. -/
theorem score_teams_text_cases (t : String) :
    score_teams_text t = 0 ∨ score_teams_text t = 2 ∨
    score_teams_text t = 3 ∨ score_teams_text t = 5 := by
  simp only [score_teams_text, detect_teams_confirmation]
  split_ifs <;> simp

/-- Range of checkpoint 10. -/
theorem score_screenshot_field_cases (t : String) :
    score_screenshot_field t = 0 ∨ score_screenshot_field t = 2 ∨
    score_screenshot_field t = 3 ∨ score_screenshot_field t = 5 := by
  simp only [score_screenshot_field]
  split_ifs <;> simp

/-- Range of checkpoint 11. -/
theorem score_doc_share_cases (t : String) :
    score_doc_share t = 0 ∨ score_doc_share t = 2 ∨
    score_doc_share t = 3 ∨ score_doc_share t = 5 := by
  simp only [score_doc_share]
  split_ifs <;> simp

/-- Range of checkpoint 12. -/
theorem score_compliance_cases (t : String) (m : Option PyFloat) (tl : String) :
    score_compliance t m tl = 0 ∨ score_compliance t m tl = 2 ∨
    score_compliance t m tl = 3 ∨ score_compliance t m tl = 5 := by
  simp only [score_compliance]
  split_ifs <;> simp

/-- Range of checkpoint 13. -/
theorem score_client_notes_cases (t : String) :
    score_client_notes t = 0 ∨ score_client_notes t = 2 ∨
    score_client_notes t = 3 ∨ score_client_notes t = 5 := by
  simp only [score_client_notes]
  split_ifs <;> simp

/-- A score in the value set is at most 5. -/
theorem score_le_five {s : Nat} (h : s = 0 ∨ s = 2 ∨ s = 3 ∨ s = 5) : s ≤ 5 := by
  omega

/-- The total of one row is at most 65. -/
theorem qc_total_le (r : Ticket) : qc_total_65 r ≤ 65 := by
  have h1 := score_le_five (score_category_cases r.category r.resolution_notes)
  have h2 := score_le_five (score_subcategory_cases r.subcategory r.resolution_notes)
  have h3 := score_le_five (score_read_prev_cases (unified r))
  have h4 := score_le_five (score_routing_cases (unified r))
  have h5 := score_le_five (score_ownership_cases (unified r))
  have h6 := score_le_five (score_timely_cases r.response_time_hours)
  have h7 := score_le_five (score_priority_cases r.priority (some r.mttr_hours))
  have h8 := score_le_five (score_email_format_cases (unified r) r.resolution_notes)
  have h9 := score_le_five (score_teams_text_cases (unified r))
  have h10 := score_le_five (score_screenshot_field_cases (unified r))
  have h11 := score_le_five (score_doc_share_cases (unified r))
  have h12 := score_le_five (score_compliance_cases (unified r) (some r.mttr_hours) r.timeline)
  have h13 := score_le_five (score_client_notes_cases (unified r))
  simp only [qc_total_65, qc_scores, List.sum_cons, List.sum_nil]
  omega

/-- Bounds of the one-decimal rounding on the percentage range. -/
theorem pyRound1_bounds (x : ℚ) (hx0 : 0 ≤ x) (hx1 : x ≤ 100) :
    0 ≤ pyRound1 x ∧ pyRound1 x ≤ 100 := by
  have hy0 : (0:ℚ) ≤ x * 10 := by linarith
  have hy1 : x * 10 ≤ 1000 := by linarith
  have hf0 : (0:ℤ) ≤ ⌊x * 10⌋ := Int.floor_nonneg.mpr hy0
  have hfle : (⌊x * 10⌋ : ℚ) ≤ x * 10 := Int.floor_le _
  have hf1 : ⌊x * 10⌋ ≤ 1000 := by
    have hq : (⌊x * 10⌋ : ℚ) ≤ 1000 := le_trans hfle hy1
    exact_mod_cast hq
  have key : ∀ n : ℤ, 0 ≤ n → n ≤ 1000 → 0 ≤ (n:ℚ)/10 ∧ (n:ℚ)/10 ≤ 100 := by
    intro n hn0 hn1
    have c0 : (0:ℚ) ≤ (n:ℚ) := by exact_mod_cast hn0
    have c1 : (n:ℚ) ≤ 1000 := by exact_mod_cast hn1
    constructor
    · positivity
    · rw [div_le_iff₀ (by norm_num : (0:ℚ) < 10)]
      linarith
  have hceil : 1/2 ≤ x * 10 - (⌊x * 10⌋ : ℚ) → ⌊x * 10⌋ + 1 ≤ 1000 := by
    intro hhalf
    have hlt : (⌊x * 10⌋ : ℚ) < 1000 := by linarith
    have : ⌊x * 10⌋ < 1000 := by exact_mod_cast hlt
    omega
  simp only [pyRound1]
  split_ifs with hb1 hb2 hb3
  · exact key _ hf0 hf1
  · exact key _ (by omega) (hceil (le_of_lt hb2))
  · exact key _ hf0 hf1
  · exact key _ (by omega) (hceil (not_lt.mp hb1))

/-- Claim C8: the aggregate `qc_total_65` of every ticket is exactly the
sum of the thirteen checkpoint scores of that ticket, and `qc_percent` is
`qc_total_65 / 65 * 100` rounded to one decimal, with the fixed divisor
65. -/
theorem claim8_aggregate_identity (r : Ticket) :
    qc_total_65 r =
      score_category r.category r.resolution_notes +
      score_subcategory r.subcategory r.resolution_notes +
      score_read_prev (unified r) +
      score_routing (unified r) +
      score_ownership (unified r) +
      score_timely r.response_time_hours +
      score_priority r.priority (some r.mttr_hours) +
      score_email_format (unified r) r.resolution_notes +
      score_teams_text (unified r) +
      score_screenshot_field (unified r) +
      score_doc_share (unified r) +
      score_compliance (unified r) (some r.mttr_hours) r.timeline +
      score_client_notes (unified r) ∧
    qc_percent r = pyRound1 ((qc_total_65 r : ℚ) / 65 * 100) := by
  constructor
  · simp only [qc_total_65, qc_scores, List.sum_cons, List.sum_nil]
    omega
  · rfl

/-- Claim C9: every checkpoint scorer yields a value in {0, 2, 3, 5} on
every input, hence every row total is at most 65 and every percentage
lies between 0 and 100. -/
theorem claim9_bounds :
    (∀ c n, score_category c n = 0 ∨ score_category c n = 2 ∨
      score_category c n = 3 ∨ score_category c n = 5) ∧
    (∀ c n, score_subcategory c n = 0 ∨ score_subcategory c n = 2 ∨
      score_subcategory c n = 3 ∨ score_subcategory c n = 5) ∧
    (∀ t, score_read_prev t = 0 ∨ score_read_prev t = 2 ∨
      score_read_prev t = 3 ∨ score_read_prev t = 5) ∧
    (∀ t, score_routing t = 0 ∨ score_routing t = 2 ∨
      score_routing t = 3 ∨ score_routing t = 5) ∧
    (∀ t, score_ownership t = 0 ∨ score_ownership t = 2 ∨
      score_ownership t = 3 ∨ score_ownership t = 5) ∧
    (∀ h, score_timely h = 0 ∨ score_timely h = 2 ∨
      score_timely h = 3 ∨ score_timely h = 5) ∧
    (∀ p m, score_priority p m = 0 ∨ score_priority p m = 2 ∨
      score_priority p m = 3 ∨ score_priority p m = 5) ∧
    (∀ t n, score_email_format t n = 0 ∨ score_email_format t n = 2 ∨
      score_email_format t n = 3 ∨ score_email_format t n = 5) ∧
    (∀ t, score_teams_text t = 0 ∨ score_teams_text t = 2 ∨
      score_teams_text t = 3 ∨ score_teams_text t = 5) ∧
    (∀ t, score_screenshot_field t = 0 ∨ score_screenshot_field t = 2 ∨
      score_screenshot_field t = 3 ∨ score_screenshot_field t = 5) ∧
    (∀ t, score_doc_share t = 0 ∨ score_doc_share t = 2 ∨
      score_doc_share t = 3 ∨ score_doc_share t = 5) ∧
    (∀ t m tl, score_compliance t m tl = 0 ∨ score_compliance t m tl = 2 ∨
      score_compliance t m tl = 3 ∨ score_compliance t m tl = 5) ∧
    (∀ t, score_client_notes t = 0 ∨ score_client_notes t = 2 ∨
      score_client_notes t = 3 ∨ score_client_notes t = 5) ∧
    (∀ r : Ticket, qc_total_65 r ≤ 65) ∧
    (∀ r : Ticket, 0 ≤ qc_percent r ∧ qc_percent r ≤ 100) := by
  refine ⟨score_category_cases, score_subcategory_cases, score_read_prev_cases,
    score_routing_cases, score_ownership_cases, score_timely_cases,
    score_priority_cases, score_email_format_cases, score_teams_text_cases,
    score_screenshot_field_cases, score_doc_share_cases, score_compliance_cases,
    score_client_notes_cases, qc_total_le, fun r => ?_⟩
  have hb : qc_total_65 r ≤ 65 := qc_total_le r
  simp only [qc_percent]
  generalize hg : qc_total_65 r = t at hb
  have ht : (t : ℚ) ≤ 65 := by exact_mod_cast hb
  have h0 : (0:ℚ) ≤ (t : ℚ) / 65 * 100 := by positivity
  have h1 : (t : ℚ) / 65 * 100 ≤ 100 := by
    rw [div_mul_eq_mul_div, div_le_iff₀ (by norm_num : (0:ℚ) < 65)]
    linarith
  exact pyRound1_bounds _ h0 h1

end QC
